import Mathlib

/-!
# Space store (`domain/space/mysql/store.go`)

A shallow embedding of the MySQL-backed space store: the Go methods of `Scope`
(`Add`, `Get`, `PublicSpaces`, `GetViewable`, `GetAll`, `Update`) together with a
relational model of the statements they send to the database.

The statements are kept as the text the source holds.  The select list of a
query is read from that text, because the driver maps result columns to the
fields of `space.Space` by their alias; the `FROM`/`WHERE`/`ORDER BY` part of
each statement is translated by hand into a function on the tables.

Conventions of the model:
* a table is the list of its rows, columns hold no nulls, text is compared
  character by character and `ORDER BY c_name` sorts by the order of `String`;
* timestamps are natural numbers and each `time.Now()` is a clock reading
  passed to the operation;
* a Go slice is an optional list, `none` being the nil slice, and an `error`
  is an optional `GoError`, `none` being nil;
* `fault` is the error, if any, that the connection reports for the one
  statement an operation sends;
* the clock does not run backwards: a later reading is an earlier one plus the
  time elapsed;
* an operation runs on the rows its handle has: `Add` and `Update` on the rows
  of the request's transaction (`ctx.Transaction`), `Get` and the list
  operations on the committed rows (`s.Runtime.Db`); a `Session` keeps the two
  apart, and a write reaches the committed rows when the caller commits.
-/

namespace SpaceStore

/-! ## Statement text -/

/-- Statement of `Get` (store.go lines 50-55). -/
def getQuery : String :=
  "SELECT id, c_refid as refid,\n" ++
  "        c_name as name, c_orgid as orgid, c_userid as userid,\n" ++
  "        c_type as type, c_lifecycle as lifecycle, c_likes as likes,\n" ++
  "        c_created as created, c_revised as revised\n" ++
  "        FROM dmz_space\n" ++
  "        WHERE c_orgid=? and c_refid=?"

/-- Statement of `PublicSpaces` (store.go lines 67-72). -/
def publicSpacesQuery : String :=
  "SELECT id, c_refid as refid\n" ++
  "        c_name as name, c_orgid as orgid, c_userid as userid,\n" ++
  "        c_type as type, c_lifecycle as lifecycle, c_likes as likes,\n" ++
  "        c_created as created, c_revised as revised\n" ++
  "        FROM dmz_space\n" ++
  "        WHERE c_orgid=? AND c_type=1"

/-- Statement of `GetViewable` (store.go lines 90-104). -/
def getViewableQuery : String :=
  "\n" ++
  "    SELECT id, c_refid as refid\n" ++
  "        c_name as name, c_orgid as orgid, c_userid as userid,\n" ++
  "        c_type as type, c_lifecycle as lifecycle, c_likes as likes,\n" ++
  "        c_created as created, c_revised as revised\n" ++
  "    FROM dmz_space\n" ++
  "\tWHERE c_orgid=? AND c_refid IN\n" ++
  "        (SELECT c_refid FROM dmz_permission WHERE c_orgid=? AND c_location='space' AND c_refid IN\n" ++
  "            (SELECT c_refid FROM dmz_permission WHERE c_orgid=? AND c_who='user' AND (c_whoid=? OR c_whoid='0') AND c_location='space' AND c_action='view'\n" ++
  "            UNION ALL\n" ++
  "\t\t    SELECT p.refid from dmz_permission p LEFT JOIN dmz_group_member r ON p.c_whoid=r.c_groupid WHERE p.c_orgid=? AND p.c_who='role'\n" ++
  "            AND p.c_location='space' AND p.c_action='view' AND (r.c_userid=? OR r.c_userid='0')\n" ++
  "            )\n" ++
  "\t    )\n" ++
  "\tORDER BY c_name"

/-- Statement of `GetAll` (store.go lines 127-134). -/
def getAllQuery : String :=
  "\n" ++
  "    SELECT id, c_refid as refid\n" ++
  "        c_name as name, c_orgid as orgid, c_userid as userid,\n" ++
  "        c_type as type, c_lifecycle as lifecycle, c_likes as likes,\n" ++
  "        c_created as created, c_revised as revised\n" ++
  "    FROM dmz_space\n" ++
  "    WHERE c_orgid=?\n" ++
  "\tORDER BY c_name"

/-! ## Reading the select list of a statement -/

/-- Blank characters between the words of a statement. -/
def isBlank (c : Char) : Bool :=
  c == ' ' || c == Char.ofNat 10 || c == Char.ofNat 9 || c == Char.ofNat 13

/-- Characters that are a token by themselves. -/
def isPunct (c : Char) : Bool :=
  c == ',' || c == '(' || c == ')'

/-- The word being read, closed: nothing when no character was read. -/
def flush (cur : List Char) : List String :=
  match cur with
  | [] => []
  | _ :: _ => [String.mk cur.reverse]

/-- Tokens of a statement: words separated by blanks, with `,`, `(` and `)`
tokens of their own.  `cur` holds the characters of the current word, last
first. -/
def tokensAux : List Char → List Char → List String
  | [], cur => flush cur
  | c :: cs, cur =>
    if isBlank c then flush cur ++ tokensAux cs []
    else if isPunct c then flush cur ++ (String.mk [c] :: tokensAux cs [])
    else tokensAux cs (c :: cur)

/-- Tokens of a statement. -/
def tokens (q : String) : List String := tokensAux q.data []

/-- Keywords are compared without regard to case. -/
def isKeyword (kw tok : String) : Bool :=
  tok.data.map Char.toLower == kw.data

/-- The tokens after the first `SELECT`. -/
def afterSelect : List String → List String
  | [] => []
  | t :: ts => if isKeyword "select" t then ts else afterSelect ts

/-- The tokens up to the first `FROM`. -/
def beforeFrom : List String → List String
  | [] => []
  | t :: ts => if isKeyword "from" t then [] else t :: beforeFrom ts

/-- Split a token list at the `,` tokens.  `cur` holds the current item, last
token first. -/
def splitCommaAux : List String → List String → List (List String)
  | [], cur => [cur.reverse]
  | t :: ts, cur =>
    if t = "," then cur.reverse :: splitCommaAux ts [] else splitCommaAux ts (t :: cur)

/-- The select list of a statement as its comma-separated items, each item the
list of its words. -/
def selectItems (q : String) : List (List String) :=
  splitCommaAux (beforeFrom (afterSelect (tokens q))) []

/-- One select item read as `column` or `column as alias`: the column and the
name the result column carries.  Anything else is not a select item. -/
def parseItem : List String → Option (String × String)
  | [col] => some (col, col)
  | [col, kw, al] => if isKeyword "as" kw then some (col, al) else none
  | _ => none

/-- The select list as column-to-result-name mappings; `none` when an item is
not of the form `column` or `column as alias`. -/
def selectMappings (q : String) : Option (List (String × String)) :=
  (selectItems q).mapM parseItem

/-- The ten mappings of `Get`. -/
def spaceMappings : List (String × String) :=
  [("id", "id"), ("c_refid", "refid"), ("c_name", "name"), ("c_orgid", "orgid"),
   ("c_userid", "userid"), ("c_type", "type"), ("c_lifecycle", "lifecycle"),
   ("c_likes", "likes"), ("c_created", "created"), ("c_revised", "revised")]

/-! ## Errors -/

/-- Go error values as the store sees them: the sentinel `sql.ErrNoRows`, any
other error reported by the driver or the server, and an error annotated by
`errors.Wrap`. -/
inductive GoError where
  | ErrNoRows
  | driver (msg : String)
  | withMessage (cause : GoError) (msg : String)
  deriving DecidableEq

/-- The call `errors.Wrap(err, message)` on a non-nil error: the result keeps
`err` as its cause. -/
def errors.Wrap (err : GoError) (message : String) : GoError :=
  GoError.withMessage err message

/-- The cause an annotated error wraps. -/
def GoError.cause : GoError → Option GoError
  | .withMessage c _ => some c
  | _ => none

/-- The annotation of an error: the message given to `errors.Wrap`, or the
text of a plain error. -/
def GoError.message : GoError → String
  | .ErrNoRows => "sql: no rows in result set"
  | .driver m => m
  | .withMessage _ m => m

/-- The text of an error, as `Error()` gives it: an annotated error prints its
message, a colon and the text of its cause. -/
def GoError.Error : GoError → String
  | .ErrNoRows => "sql: no rows in result set"
  | .driver m => m
  | .withMessage c m => m ++ ": " ++ c.Error

/-- A piece of text occurs in a message. -/
def occursIn (key msg : String) : Prop := key.data <:+: msg.data

instance (key msg : String) : Decidable (occursIn key msg) := by
  unfold occursIn; infer_instance

/-- Server error for a statement that does not parse. -/
def syntaxError : GoError :=
  GoError.driver "Error 1064: You have an error in your SQL syntax"

/-- Server error for a column name the table does not have. -/
def unknownColumn (col : String) : GoError :=
  GoError.driver ("Error 1054: Unknown column " ++ col)

/-- Scan error for a result column that names no field of the destination. -/
def missingDestination (name : String) : GoError :=
  GoError.driver ("missing destination name " ++ name)

/-! ## Data model -/

/-- Modelled from the spec: the entity `space.Space` (package `model/space` is
not among the sources).  Identifier, reference id, name, organization id, owner
user id, type, lifecycle, likes, created and revised; timestamps are clock
readings. -/
structure Space where
  ID : Nat
  RefID : String
  Name : String
  OrgID : String
  UserID : String
  Type_ : Int
  Lifecycle : Int
  Likes : Int
  Created : Nat
  Revised : Nat
  deriving DecidableEq

/-- The zero value of `space.Space`. -/
def Space.zero : Space := ⟨0, "", "", "", "", 0, 0, 0, 0, 0⟩

/-- Modelled from the spec: the part of `domain.RequestContext` the store
reads, the organization id and the user id.  The rows of its open transaction
(`ctx.Transaction`) are handed to `Add` and `Update` as an argument of their
own, `tx`; a `Session` holds them next to the committed rows. -/
structure RequestContext where
  OrgID : String
  UserID : String
  deriving DecidableEq

/-- Modelled from the spec: a row of table `dmz_permission`, keyed by
organization id, subject kind, subject id, resource location, resource
reference id and action.  The fields carry the column names the statements
use. -/
structure Permission where
  c_orgid : String
  c_who : String
  c_whoid : String
  c_location : String
  c_refid : String
  c_action : String
  deriving DecidableEq

/-- Modelled from the spec: a row of table `dmz_group_member`, mapping a group
id to a user id. -/
structure GroupMember where
  c_groupid : String
  c_userid : String
  deriving DecidableEq

/-- The tables the store reads and writes, and the next identifier the
storage assigns to an inserted space. -/
structure Store where
  spaces : List Space
  permissions : List Permission
  members : List GroupMember
  nextID : Nat
  deriving DecidableEq

/-- A value held in a column of `dmz_space`. -/
inductive Val where
  | num (n : Nat)
  | int (i : Int)
  | str (s : String)
  | time (t : Nat)
  deriving DecidableEq

/-- Column of `dmz_space` by name; `none` for a name the table does not
have. -/
def Space.column (name : String) : Option (Space → Val) :=
  if name = "id" then some fun r => Val.num r.ID
  else if name = "c_refid" then some fun r => Val.str r.RefID
  else if name = "c_name" then some fun r => Val.str r.Name
  else if name = "c_orgid" then some fun r => Val.str r.OrgID
  else if name = "c_userid" then some fun r => Val.str r.UserID
  else if name = "c_type" then some fun r => Val.int r.Type_
  else if name = "c_lifecycle" then some fun r => Val.int r.Lifecycle
  else if name = "c_likes" then some fun r => Val.int r.Likes
  else if name = "c_created" then some fun r => Val.time r.Created
  else if name = "c_revised" then some fun r => Val.time r.Revised
  else none

/-- Scan of one result value into the field of `space.Space` that carries the
result column's name; `none` when no field has that name or the value does not
fit it. -/
def Space.scan (sp : Space) (name : String) (v : Val) : Option Space :=
  if name = "id" then
    match v with | .num n => some { sp with ID := n } | _ => none
  else if name = "refid" then
    match v with | .str s => some { sp with RefID := s } | _ => none
  else if name = "name" then
    match v with | .str s => some { sp with Name := s } | _ => none
  else if name = "orgid" then
    match v with | .str s => some { sp with OrgID := s } | _ => none
  else if name = "userid" then
    match v with | .str s => some { sp with UserID := s } | _ => none
  else if name = "type" then
    match v with | .int i => some { sp with Type_ := i } | _ => none
  else if name = "lifecycle" then
    match v with | .int i => some { sp with Lifecycle := i } | _ => none
  else if name = "likes" then
    match v with | .int i => some { sp with Likes := i } | _ => none
  else if name = "created" then
    match v with | .time t => some { sp with Created := t } | _ => none
  else if name = "revised" then
    match v with | .time t => some { sp with Revised := t } | _ => none
  else none

/-- Column of `dmz_permission` by name; `none` for a name the table does not
have. -/
def Permission.column (name : String) : Option (Permission → String) :=
  if name = "c_orgid" then some Permission.c_orgid
  else if name = "c_who" then some Permission.c_who
  else if name = "c_whoid" then some Permission.c_whoid
  else if name = "c_location" then some Permission.c_location
  else if name = "c_refid" then some Permission.c_refid
  else if name = "c_action" then some Permission.c_action
  else none

/-! ## The database -/

/-- Decode one row of `dmz_space` through the select list: each item's column
is read from the row and scanned into the field named by its alias, starting
from the zero value. -/
def decodeRow (maps : List (String × String)) (r : Space) : Except GoError Space :=
  maps.foldlM
    (fun acc m =>
      match Space.column m.1 with
      | none => Except.error (unknownColumn m.1)
      | some col =>
        match acc.scan m.2 (col r) with
        | none => Except.error (missingDestination m.2)
        | some acc' => Except.ok acc')
    Space.zero

/-- A select statement on `dmz_space`: its text, and the rows its `FROM`,
`WHERE` and `ORDER BY` clauses denote on the tables once the arguments are
bound (an error when a subquery names a column its table does not have). -/
structure Query where
  text : String
  rows : Store → Except GoError (List Space)

/-- Run a query: the statement is parsed, its columns are resolved, its rows
are selected and each one is decoded through the select list.  `fault` is the
error, if any, that the connection reports for the call. -/
def Db.run (db : Store) (fault : Option GoError) (q : Query) : Except GoError (List Space) :=
  match fault with
  | some e => Except.error e
  | none =>
    match selectMappings q.text with
    | none => Except.error syntaxError
    | some maps =>
      match decodeRow maps Space.zero with
      | Except.error e => Except.error e
      | Except.ok _ =>
        match q.rows db with
        | Except.error e => Except.error e
        | Except.ok rs => rs.mapM (decodeRow maps)

/-- The call `Db.Get(&sp, query, args...)`: the first row of the result is
scanned into the destination; without a row the error is `sql.ErrNoRows`. -/
def Db.Get (db : Store) (fault : Option GoError) (q : Query) : Space × Option GoError :=
  match Db.run db fault q with
  | Except.error e => (Space.zero, some e)
  | Except.ok [] => (Space.zero, some GoError.ErrNoRows)
  | Except.ok (r :: _) => (r, none)

/-- The call `Db.Select(&sp, query, args...)`: every row of the result is
appended to the destination slice, which stays nil (`none`) when there is no
row. -/
def Db.Select (db : Store) (fault : Option GoError) (q : Query) :
    Option (List Space) × Option GoError :=
  match Db.run db fault q with
  | Except.error e => (none, some e)
  | Except.ok [] => (none, none)
  | Except.ok (r :: rs) => (some (r :: rs), none)

/-- The `INSERT INTO dmz_space` of `Add`: one row with the nine given column
values and a storage-assigned identifier.  `tx` holds the rows as the handle
that runs the statement has them, for `Add` the request's transaction: the row
is in the transaction, not yet among the committed rows. -/
def Db.insertSpace (tx : Store) (fault : Option GoError)
    (c_refid c_name c_orgid c_userid : String) (c_type c_lifecycle c_likes : Int)
    (c_created c_revised : Nat) : Store × Option GoError :=
  match fault with
  | some e => (tx, some e)
  | none =>
    ({ tx with
        spaces := tx.spaces ++
          [⟨tx.nextID, c_refid, c_name, c_orgid, c_userid, c_type, c_lifecycle, c_likes,
            c_created, c_revised⟩]
        nextID := tx.nextID + 1 }, none)

/-- The `UPDATE dmz_space SET ... WHERE c_orgid=:orgid AND c_refid=:refid` of
`Update`, with the named parameters bound from the space.  `tx` holds the rows
as the handle that runs the statement has them, for `Update` the request's
transaction. -/
def Db.updateSpace (tx : Store) (fault : Option GoError) (sp : Space) : Store × Option GoError :=
  match fault with
  | some e => (tx, some e)
  | none =>
    ({ tx with
        spaces := tx.spaces.map fun r =>
          if r.OrgID = sp.OrgID ∧ r.RefID = sp.RefID then
            { r with
                Name := sp.Name, Type_ := sp.Type_, Lifecycle := sp.Lifecycle,
                UserID := sp.UserID, Likes := sp.Likes, Revised := sp.Revised }
          else r }, none)

/-- Rows of `p LEFT JOIN r ON p.c_whoid=r.c_groupid`: a permission row with
every group-member row of its group, or once with no member row. -/
def leftJoin (ps : List Permission) (rs : List GroupMember) :
    List (Permission × Option GroupMember) :=
  ps.flatMap fun p =>
    match rs.filter (fun r => p.c_whoid = r.c_groupid) with
    | [] => [(p, none)]
    | ms => ms.map fun r => (p, some r)

/-- The test `(r.c_userid=? OR r.c_userid='0')` on the joined member row; it
fails on the null columns of a permission row joined to no member. -/
def memberMatches (userID : String) : Option GroupMember → Bool
  | some r => decide (r.c_userid = userID ∨ r.c_userid = "0")
  | none => false

/-- Read a column of `dmz_permission` off the given rows. -/
def projectPermission (col : String) (ps : List Permission) : Except GoError (List String) :=
  match Permission.column col with
  | none => Except.error (unknownColumn col)
  | some f => Except.ok (ps.map f)

/-- The innermost subquery of `GetViewable`: the user-kind grants
`UNION ALL` the role-kind grants joined to the group members. -/
def viewableRefs (db : Store) (orgID userID : String) : Except GoError (List String) :=
  match projectPermission "c_refid"
      (db.permissions.filter fun p =>
        p.c_orgid = orgID ∧ p.c_who = "user" ∧ (p.c_whoid = userID ∨ p.c_whoid = "0") ∧
          p.c_location = "space" ∧ p.c_action = "view") with
  | Except.error e => Except.error e
  | Except.ok users =>
    match projectPermission "refid"
        (((leftJoin db.permissions db.members).filter fun pr =>
          pr.1.c_orgid = orgID ∧ pr.1.c_who = "role" ∧
            pr.1.c_location = "space" ∧ pr.1.c_action = "view" ∧
            memberMatches userID pr.2).map Prod.fst) with
    | Except.error e => Except.error e
    | Except.ok roles => Except.ok (users ++ roles)

/-- The `FROM`, `WHERE` and `ORDER BY` clauses of `GetViewable`. -/
def viewableRows (orgID userID : String) (db : Store) : Except GoError (List Space) :=
  match viewableRefs db orgID userID with
  | Except.error e => Except.error e
  | Except.ok inner =>
    match projectPermission "c_refid"
        (db.permissions.filter fun p =>
          p.c_orgid = orgID ∧ p.c_location = "space" ∧ p.c_refid ∈ inner) with
    | Except.error e => Except.error e
    | Except.ok refs =>
      Except.ok
        ((db.spaces.filter fun r => r.OrgID = orgID ∧ r.RefID ∈ refs).insertionSort
          fun a b => a.Name ≤ b.Name)

/-- The statement of `Get` with its two arguments bound. -/
def getStmt (orgID id : String) : Query :=
  ⟨getQuery, fun db => Except.ok (db.spaces.filter fun r => r.OrgID = orgID ∧ r.RefID = id)⟩

/-- The statement of `PublicSpaces` with its argument bound. -/
def publicSpacesStmt (orgID : String) : Query :=
  ⟨publicSpacesQuery,
    fun db => Except.ok (db.spaces.filter fun r => r.OrgID = orgID ∧ r.Type_ = 1)⟩

/-- The statement of `GetViewable` with its six arguments bound: the
organization id four times and the user id twice. -/
def getViewableStmt (orgID userID : String) : Query :=
  ⟨getViewableQuery, viewableRows orgID userID⟩

/-- The statement of `GetAll` with its argument bound. -/
def getAllStmt (orgID : String) : Query :=
  ⟨getAllQuery,
    fun db => Except.ok
      ((db.spaces.filter fun r => r.OrgID = orgID).insertionSort fun a b => a.Name ≤ b.Name)⟩

/-! ## The store -/

/-- Add adds new folder into the store.  `now1` and `now2` are the two clock
readings the method takes; `tx` holds the rows of `ctx.Transaction`, on which
the insert runs. -/
def Scope.Add (tx : Store) (fault : Option GoError) (ctx : RequestContext) (sp : Space)
    (now1 now2 : Nat) : Store × Option GoError :=
  let sp := { sp with UserID := ctx.UserID }
  let sp := { sp with Created := now1 }
  let sp := { sp with Revised := now2 }
  match Db.insertSpace tx fault sp.RefID sp.Name sp.OrgID sp.UserID sp.Type_ sp.Lifecycle
      sp.Likes sp.Created sp.Revised with
  | (db', some err) => (db', some (errors.Wrap err "unable to execute insert for label"))
  | (db', none) => (db', none)

/-- Get returns a space from the store.  `db` holds the rows `s.Runtime.Db`
reads, the committed ones. -/
def Scope.Get (db : Store) (fault : Option GoError) (ctx : RequestContext) (id : String) :
    Space × Option GoError :=
  match Db.Get db fault (getStmt ctx.OrgID id) with
  | (sp, some err) => (sp, some (errors.Wrap err ("unable to execute select for label " ++ id)))
  | (sp, none) => (sp, none)

/-- The two `if` statements that close each list operation: `sql.ErrNoRows`
becomes an empty list and no error, any other error is wrapped with the
operation's message. -/
def finishList (r : Option (List Space) × Option GoError) (message : String) :
    Option (List Space) × Option GoError :=
  let r := if r.2 = some GoError.ErrNoRows then (some [], none) else r
  match r with
  | (sp, some err) => (sp, some (errors.Wrap err message))
  | (sp, none) => (sp, none)

/-- PublicSpaces returns spaces that anyone can see. -/
def Scope.PublicSpaces (db : Store) (fault : Option GoError) (_ctx : RequestContext)
    (orgID : String) : Option (List Space) × Option GoError :=
  finishList (Db.Select db fault (publicSpacesStmt orgID))
    ("Unable to execute GetPublicFolders for org " ++ orgID)

/-- GetViewable returns spaces that the user can see. -/
def Scope.GetViewable (db : Store) (fault : Option GoError) (ctx : RequestContext) :
    Option (List Space) × Option GoError :=
  finishList (Db.Select db fault (getViewableStmt ctx.OrgID ctx.UserID))
    ("failed space.GetViewable org " ++ ctx.OrgID)

/-- GetAll for admin users. -/
def Scope.GetAll (db : Store) (fault : Option GoError) (ctx : RequestContext) :
    Option (List Space) × Option GoError :=
  finishList (Db.Select db fault (getAllStmt ctx.OrgID))
    ("failed space.GetAll org " ++ ctx.OrgID)

/-- Update saves space changes.  `now` is the clock reading the method
takes; `tx` holds the rows of `ctx.Transaction`, on which the update runs. -/
def Scope.Update (tx : Store) (fault : Option GoError) (_ctx : RequestContext) (sp : Space)
    (now : Nat) : Store × Option GoError :=
  let sp := { sp with Revised := now }
  match Db.updateSpace tx fault sp with
  | (db', some err) =>
    (db', some (errors.Wrap err ("unable to execute update for label " ++ sp.RefID)))
  | (db', none) => (db', none)

/-! ## The visibility rule, and sample data -/

/-- The visibility rule in the spec's words: the current user has a "view"
grant on the space, either a user-kind grant whose subject is the user or the
wildcard "0", or a role-kind grant whose role has a group-member row for the
user or for the wildcard "0". -/
def specHasViewGrant (db : Store) (ctx : RequestContext) (r : Space) : Prop :=
  ∃ p ∈ db.permissions,
    p.c_orgid = ctx.OrgID ∧ p.c_location = "space" ∧ p.c_refid = r.RefID ∧ p.c_action = "view" ∧
      ((p.c_who = "user" ∧ (p.c_whoid = ctx.UserID ∨ p.c_whoid = "0")) ∨
        (p.c_who = "role" ∧
          ∃ m ∈ db.members, m.c_groupid = p.c_whoid ∧
            (m.c_userid = ctx.UserID ∨ m.c_userid = "0")))

/-- A public space of organization `o1`. -/
def spaceAlpha : Space := ⟨1, "s1", "Alpha", "o1", "u1", 1, 0, 0, 10, 10⟩

/-- A private space of organization `o1`. -/
def spaceBeta : Space := ⟨2, "s2", "Beta", "o1", "u1", 0, 0, 0, 10, 10⟩

/-- A public space of organization `o2`. -/
def spaceGamma : Space := ⟨3, "s3", "Gamma", "o2", "u9", 1, 0, 0, 10, 10⟩

/-- Three spaces in two organizations; user `u1` holds a "view" grant on `s2`
and everyone holds one on `s1` through role `g1`. -/
def sampleStore : Store :=
  { spaces := [spaceAlpha, spaceBeta, spaceGamma]
    permissions :=
      [⟨"o1", "user", "u1", "space", "s2", "view"⟩, ⟨"o1", "role", "g1", "space", "s1", "view"⟩]
    members := [⟨"g1", "0"⟩]
    nextID := 4 }

/-- A request of user `u1` in organization `o1`. -/
def sampleCtx : RequestContext := ⟨"o1", "u1"⟩

/-- A space as a caller hands it to `Add`: owner and timestamps not those the
store will stamp. -/
def spaceDelta : Space := ⟨0, "s4", "Delta", "o1", "u2", 0, 0, 0, 0, 0⟩

/-- New values for the space `s1` of organization `o1`. -/
def spaceAlphaRenamed : Space := ⟨0, "s1", "Alpha two", "o1", "u2", 0, 1, 5, 0, 0⟩

/-! ## Servers -/

/-- What a database server makes of the store's statements: how it reads the
select list of a statement, and which column names of `dmz_permission` it
resolves.  The list operations are stated once more over a server, so that
what they return can be told for every server that accepts their statements;
`standardServer` is the server of the definitions above. -/
structure Server where
  reads : String → Option (List (String × String))
  permissionColumn : String → Option (Permission → String)

/-- The server the store is written for: select lists are comma-separated
`column as alias` items and `dmz_permission` has its six columns. -/
def standardServer : Server := ⟨selectMappings, Permission.column⟩

/-- The query of `Db.run` on a given server. -/
def Db.runOn (srv : Server) (db : Store) (fault : Option GoError) (q : Query) :
    Except GoError (List Space) :=
  match fault with
  | some e => Except.error e
  | none =>
    match srv.reads q.text with
    | none => Except.error syntaxError
    | some maps =>
      match decodeRow maps Space.zero with
      | Except.error e => Except.error e
      | Except.ok _ =>
        match q.rows db with
        | Except.error e => Except.error e
        | Except.ok rs => rs.mapM (decodeRow maps)

/-- The call `Db.Select(&sp, query, args...)` on a given server. -/
def Db.SelectOn (srv : Server) (db : Store) (fault : Option GoError) (q : Query) :
    Option (List Space) × Option GoError :=
  match Db.runOn srv db fault q with
  | Except.error e => (none, some e)
  | Except.ok [] => (none, none)
  | Except.ok (r :: rs) => (some (r :: rs), none)

/-- Read a column of `dmz_permission` off the given rows, on a given server. -/
def projectPermissionOn (srv : Server) (col : String) (ps : List Permission) :
    Except GoError (List String) :=
  match srv.permissionColumn col with
  | none => Except.error (unknownColumn col)
  | some f => Except.ok (ps.map f)

/-- The innermost subquery of `GetViewable` on a given server. -/
def viewableRefsOn (srv : Server) (db : Store) (orgID userID : String) :
    Except GoError (List String) :=
  match projectPermissionOn srv "c_refid"
      (db.permissions.filter fun p =>
        p.c_orgid = orgID ∧ p.c_who = "user" ∧ (p.c_whoid = userID ∨ p.c_whoid = "0") ∧
          p.c_location = "space" ∧ p.c_action = "view") with
  | Except.error e => Except.error e
  | Except.ok users =>
    match projectPermissionOn srv "refid"
        (((leftJoin db.permissions db.members).filter fun pr =>
          pr.1.c_orgid = orgID ∧ pr.1.c_who = "role" ∧
            pr.1.c_location = "space" ∧ pr.1.c_action = "view" ∧
            memberMatches userID pr.2).map Prod.fst) with
    | Except.error e => Except.error e
    | Except.ok roles => Except.ok (users ++ roles)

/-- The `FROM`, `WHERE` and `ORDER BY` clauses of `GetViewable` on a given
server. -/
def viewableRowsOn (srv : Server) (orgID userID : String) (db : Store) :
    Except GoError (List Space) :=
  match viewableRefsOn srv db orgID userID with
  | Except.error e => Except.error e
  | Except.ok inner =>
    match projectPermissionOn srv "c_refid"
        (db.permissions.filter fun p =>
          p.c_orgid = orgID ∧ p.c_location = "space" ∧ p.c_refid ∈ inner) with
    | Except.error e => Except.error e
    | Except.ok refs =>
      Except.ok
        ((db.spaces.filter fun r => r.OrgID = orgID ∧ r.RefID ∈ refs).insertionSort
          fun a b => a.Name ≤ b.Name)

/-- The statement of `GetViewable` with its six arguments bound, on a given
server. -/
def getViewableStmtOn (srv : Server) (orgID userID : String) : Query :=
  ⟨getViewableQuery, viewableRowsOn srv orgID userID⟩

/-- PublicSpaces on a given server. -/
def Scope.PublicSpacesOn (srv : Server) (db : Store) (fault : Option GoError)
    (_ctx : RequestContext) (orgID : String) : Option (List Space) × Option GoError :=
  finishList (Db.SelectOn srv db fault (publicSpacesStmt orgID))
    ("Unable to execute GetPublicFolders for org " ++ orgID)

/-- GetViewable on a given server. -/
def Scope.GetViewableOn (srv : Server) (db : Store) (fault : Option GoError)
    (ctx : RequestContext) : Option (List Space) × Option GoError :=
  finishList (Db.SelectOn srv db fault (getViewableStmtOn srv ctx.OrgID ctx.UserID))
    ("failed space.GetViewable org " ++ ctx.OrgID)

/-- GetAll on a given server. -/
def Scope.GetAllOn (srv : Server) (db : Store) (fault : Option GoError)
    (ctx : RequestContext) : Option (List Space) × Option GoError :=
  finishList (Db.SelectOn srv db fault (getAllStmt ctx.OrgID))
    ("failed space.GetAll org " ++ ctx.OrgID)

/-- State of the comma-tolerant reading of a select list: the items read so
far (last first), the column whose item is open, whether `as` was just read,
and whether the words so far made sense. -/
structure LooseState where
  done : List (String × String)
  col : Option String
  wantAlias : Bool
  ok : Bool

/-- One word of the comma-tolerant reading: a comma is skipped, `as` asks for
the alias of the open column, any other word is that alias or opens the next
item. -/
def looseStep (s : LooseState) (t : String) : LooseState :=
  if t = "," then s
  else if isKeyword "as" t then
    match s.col, s.wantAlias with
    | some _, false => { s with wantAlias := true }
    | _, _ => { s with ok := false }
  else if s.wantAlias then
    match s.col with
    | some c => { s with done := (c, t) :: s.done, col := none, wantAlias := false }
    | none => { s with ok := false }
  else
    match s.col with
    | some c => { s with done := (c, c) :: s.done, col := some t }
    | none => { s with col := some t }

/-- A reading of the select list that takes the commas between items as
optional. -/
def looseMappings (q : String) : Option (List (String × String)) :=
  let s := (beforeFrom (afterSelect (tokens q))).foldl looseStep ⟨[], none, false, true⟩
  if s.ok ∧ ¬ s.wantAlias then
    match s.col with
    | some c => some ((c, c) :: s.done).reverse
    | none => some s.done.reverse
  else none

/-- A server that forgives what the statements of the list operations ask of
it: commas in a select list are optional, and `dmz_permission` answers to
`refid` as another name of its column `c_refid`. -/
def tolerantServer : Server :=
  ⟨looseMappings, fun name => if name = "refid" then some Permission.c_refid
    else Permission.column name⟩

instance (db : Store) (ctx : RequestContext) (r : Space) :
    Decidable (specHasViewGrant db ctx r) := by
  unfold specHasViewGrant; infer_instance

/-! ## Transactions -/

/-- The two handles of a request: `s.Runtime.Db`, which reads the committed
rows, and `ctx.Transaction`, which reads and writes the rows as the request's
open transaction has them. -/
structure Session where
  runtimeDb : Store
  transaction : Store

/-- `Add` of a request: the insert runs on `ctx.Transaction`. -/
def Session.Add (s : Session) (fault : Option GoError) (ctx : RequestContext) (sp : Space)
    (now1 now2 : Nat) : Session × Option GoError :=
  ({ s with transaction := (Scope.Add s.transaction fault ctx sp now1 now2).1 },
    (Scope.Add s.transaction fault ctx sp now1 now2).2)

/-- `Get` of a request: the select runs on `s.Runtime.Db`. -/
def Session.Get (s : Session) (fault : Option GoError) (ctx : RequestContext) (id : String) :
    Space × Option GoError :=
  Scope.Get s.runtimeDb fault ctx id

/-- The caller commits the transaction: its rows become the committed rows. -/
def Session.commit (s : Session) : Session :=
  { s with runtimeDb := s.transaction }

/-- A request that starts on the sample store with nothing uncommitted. -/
def sampleSession : Session := ⟨sampleStore, sampleStore⟩

/-- A request of user `u9` in organization `o2`. -/
def otherCtx : RequestContext := ⟨"o2", "u9"⟩

/-! ## Facts about the statements -/

set_option maxRecDepth 100000 in
theorem selectMappings_getQuery : selectMappings getQuery = some spaceMappings := by
  decide

set_option maxRecDepth 100000 in
theorem selectMappings_publicSpacesQuery : selectMappings publicSpacesQuery = none := by
  decide

set_option maxRecDepth 100000 in
theorem selectMappings_getViewableQuery : selectMappings getViewableQuery = none := by
  decide

set_option maxRecDepth 100000 in
theorem selectMappings_getAllQuery : selectMappings getAllQuery = none := by
  decide

/-- Decoding a row through the ten mappings of `Get` gives the row back. -/
theorem decodeRow_spaceMappings (r : Space) : decodeRow spaceMappings r = Except.ok r := by
  cases r
  rfl

theorem mapM_decodeRow_spaceMappings (rs : List Space) :
    rs.mapM (decodeRow spaceMappings) = Except.ok rs := by
  induction rs with
  | nil => rfl
  | cons r rs ih =>
    rw [List.mapM_cons, decodeRow_spaceMappings, ih]
    rfl

/-- A statement whose select list reads as the ten mappings yields, without a
connection failure, the rows its clauses select. -/
theorem run_of_spaceMappings (db : Store) (q : Query) (rs : List Space)
    (hq : selectMappings q.text = some spaceMappings) (hrows : q.rows db = Except.ok rs) :
    Db.run db none q = Except.ok rs := by
  simp only [Db.run, hq, hrows, decodeRow_spaceMappings, mapM_decodeRow_spaceMappings]

/-- Without a connection failure the statement of `Get` yields the rows its
`WHERE` clause selects. -/
theorem run_getStmt (db : Store) (orgID id : String) :
    Db.run db none (getStmt orgID id) =
      Except.ok (db.spaces.filter fun r => r.OrgID = orgID ∧ r.RefID = id) :=
  run_of_spaceMappings db (getStmt orgID id) _ selectMappings_getQuery rfl

/-- The clauses of `PublicSpaces` select the spaces of the organization whose
type is 1. -/
theorem publicSpacesStmt_rows (orgID : String) (db : Store) :
    ∃ rs, (publicSpacesStmt orgID).rows db = Except.ok rs ∧
      ∀ r, r ∈ rs ↔ r ∈ db.spaces ∧ r.OrgID = orgID ∧ r.Type_ = 1 :=
  ⟨_, rfl, fun r => by simp [List.mem_filter]⟩

/-- The clauses of `GetAll` select the spaces of the organization, each as
often as the table holds it, in ascending order of name. -/
theorem getAllStmt_rows (orgID : String) (db : Store) :
    ∃ rs, (getAllStmt orgID).rows db = Except.ok rs ∧
      rs.Sorted (fun a b => a.Name ≤ b.Name) ∧
      rs.Perm (db.spaces.filter fun r => r.OrgID = orgID) := by
  haveI : IsTotal Space (fun a b => a.Name ≤ b.Name) := ⟨fun a b => le_total a.Name b.Name⟩
  haveI : IsTrans Space (fun a b => a.Name ≤ b.Name) :=
    ⟨fun a b c hab hbc => le_trans hab hbc⟩
  exact ⟨_, rfl, List.sorted_insertionSort _ _, List.perm_insertionSort _ _⟩

/-- A connection failure is the outcome of the query. -/
theorem run_fault (db : Store) (e : GoError) (q : Query) :
    Db.run db (some e) q = Except.error e := rfl

/-- A statement whose select list does not parse is rejected, whatever the
tables hold. -/
theorem run_syntaxError (db : Store) (q : Query) (h : selectMappings q.text = none) :
    Db.run db none q = Except.error syntaxError := by
  simp only [Db.run, h]

theorem select_syntaxError (db : Store) (q : Query) (h : selectMappings q.text = none) :
    Db.Select db none q = (none, some syntaxError) := by
  simp only [Db.Select, run_syntaxError db q h]

theorem select_fault (db : Store) (e : GoError) (q : Query) :
    Db.Select db (some e) q = (none, some e) := rfl

/-- The role branch of the subquery of `GetViewable` reads `p.refid`, a column
`dmz_permission` does not have: the clauses select no rows for any tables. -/
theorem viewableRows_unknownColumn (orgID userID : String) (db : Store) :
    viewableRows orgID userID db = Except.error (unknownColumn "refid") := by
  have h1 : Permission.column "c_refid" = some Permission.c_refid := rfl
  have h2 : Permission.column "refid" = none := rfl
  simp only [viewableRows, viewableRefs, projectPermission, h1, h2]

/-- What `Get` returns when no connection failure occurs. -/
theorem Get_eq (db : Store) (ctx : RequestContext) (id : String) :
    Scope.Get db none ctx id =
      match db.spaces.filter (fun r => r.OrgID = ctx.OrgID ∧ r.RefID = id) with
      | [] => (Space.zero,
          some (errors.Wrap GoError.ErrNoRows ("unable to execute select for label " ++ id)))
      | r :: _ => (r, none) := by
  simp only [Scope.Get, Db.Get, run_getStmt]
  cases db.spaces.filter (fun r => r.OrgID = ctx.OrgID ∧ r.RefID = id) <;> rfl

/-- What `Add` returns when no connection failure occurs: the store with one
more row, stamped with the context's user and the two clock readings. -/
theorem Add_eq (db : Store) (ctx : RequestContext) (sp : Space) (now1 now2 : Nat) :
    Scope.Add db none ctx sp now1 now2 =
      ({ db with
          spaces := db.spaces ++
            [⟨db.nextID, sp.RefID, sp.Name, sp.OrgID, ctx.UserID, sp.Type_, sp.Lifecycle,
              sp.Likes, now1, now2⟩]
          nextID := db.nextID + 1 }, none) := rfl

/-- A connection failure makes `Add` fail. -/
theorem Add_fault (db : Store) (e : GoError) (ctx : RequestContext) (sp : Space)
    (now1 now2 : Nat) :
    Scope.Add db (some e) ctx sp now1 now2 =
      (db, some (errors.Wrap e "unable to execute insert for label")) := rfl

/-- A connection failure makes `Update` fail. -/
theorem Update_fault (db : Store) (e : GoError) (ctx : RequestContext) (sp : Space) (now : Nat) :
    Scope.Update db (some e) ctx sp now =
      (db, some (errors.Wrap e ("unable to execute update for label " ++ sp.RefID))) := rfl

/-- What `Update` returns when no connection failure occurs. -/
theorem Update_eq (db : Store) (ctx : RequestContext) (sp : Space) (now : Nat) :
    Scope.Update db none ctx sp now =
      ({ db with
          spaces := db.spaces.map fun r =>
            if r.OrgID = sp.OrgID ∧ r.RefID = sp.RefID then
              { r with
                  Name := sp.Name, Type_ := sp.Type_, Lifecycle := sp.Lifecycle,
                  UserID := sp.UserID, Likes := sp.Likes, Revised := now }
            else r }, none) := rfl

/-- A text occurs in every message that ends with it. -/
theorem occursIn_append (pre key : String) : occursIn key (pre ++ key) := by
  unfold occursIn
  rw [String.data_append]
  exact (List.suffix_append _ _).isInfix

/-- The closing steps of a list operation on an error other than
`sql.ErrNoRows`: the error is wrapped and the slice is left as it is. -/
theorem finishList_error (sp : Option (List Space)) (e : GoError) (message : String)
    (he : e ≠ GoError.ErrNoRows) :
    finishList (sp, some e) message = (sp, some (errors.Wrap e message)) := by
  simp [finishList, he]

/-- The closing steps of a list operation on `sql.ErrNoRows`. -/
theorem finishList_noRows (r : Option (List Space) × Option GoError) (message : String)
    (h : r.2 = some GoError.ErrNoRows) :
    finishList r message = (some [], none) := by
  simp [finishList, h]

/-- No statement of `PublicSpaces` is accepted: without a connection failure
the operation fails with the wrapped syntax error for every store. -/
theorem PublicSpaces_rejected (db : Store) (ctx : RequestContext) (orgID : String) :
    Scope.PublicSpaces db none ctx orgID =
      (none, some (errors.Wrap syntaxError
        ("Unable to execute GetPublicFolders for org " ++ orgID))) := by
  rw [Scope.PublicSpaces, select_syntaxError db _ selectMappings_publicSpacesQuery]
  exact finishList_error none syntaxError _ (by decide)

/-- No statement of `GetViewable` is accepted. -/
theorem GetViewable_rejected (db : Store) (ctx : RequestContext) :
    Scope.GetViewable db none ctx =
      (none, some (errors.Wrap syntaxError ("failed space.GetViewable org " ++ ctx.OrgID))) := by
  rw [Scope.GetViewable, select_syntaxError db _ selectMappings_getViewableQuery]
  exact finishList_error none syntaxError _ (by decide)

/-- No statement of `GetAll` is accepted. -/
theorem GetAll_rejected (db : Store) (ctx : RequestContext) :
    Scope.GetAll db none ctx =
      (none, some (errors.Wrap syntaxError ("failed space.GetAll org " ++ ctx.OrgID))) := by
  rw [Scope.GetAll, select_syntaxError db _ selectMappings_getAllQuery]
  exact finishList_error none syntaxError _ (by decide)

/-- The closing steps of a list operation leave a successful select as it
is. -/
theorem finishList_ok (sp : Option (List Space)) (message : String) :
    finishList (sp, none) message = (sp, none) := by
  simp [finishList]

/-- On the server the store is written for, the operations over a server are
the operations of the store. -/
theorem on_standardServer (db : Store) (fault : Option GoError) (ctx : RequestContext)
    (orgID : String) :
    Scope.PublicSpacesOn standardServer db fault ctx orgID =
        Scope.PublicSpaces db fault ctx orgID ∧
      Scope.GetViewableOn standardServer db fault ctx = Scope.GetViewable db fault ctx ∧
      Scope.GetAllOn standardServer db fault ctx = Scope.GetAll db fault ctx :=
  ⟨rfl, rfl, rfl⟩

/-- A select that succeeds on a server which reads the select list as the ten
mappings, or else rejects it, hands back the rows the clauses of the statement
select. -/
theorem SelectOn_ok (srv : Server) (db : Store) (fault : Option GoError) (q : Query)
    (hsrv : srv.reads q.text = none ∨ srv.reads q.text = some spaceMappings)
    (hok : (Db.SelectOn srv db fault q).2 = none) :
    ∃ rs, q.rows db = Except.ok rs ∧
      Db.SelectOn srv db fault q = ((Db.SelectOn srv db fault q).1, none) ∧
      (Db.SelectOn srv db fault q).1.getD [] = rs := by
  cases fault with
  | some e => simp [Db.SelectOn, Db.runOn] at hok
  | none =>
    rcases hsrv with hnone | hten
    · simp [Db.SelectOn, Db.runOn, hnone] at hok
    · cases hrows : q.rows db with
      | error e => simp [Db.SelectOn, Db.runOn, hten, hrows, decodeRow_spaceMappings] at hok
      | ok rs =>
        have hrun : Db.runOn srv db none q = Except.ok rs := by
          simp only [Db.runOn, hten, hrows, decodeRow_spaceMappings,
            mapM_decodeRow_spaceMappings]
        refine ⟨rs, rfl, ?_, ?_⟩
        · simp only [Db.SelectOn, hrun]
          cases rs <;> rfl
        · simp only [Db.SelectOn, hrun]
          cases rs <;> rfl

/-- What a list operation returns when its select succeeds. -/
theorem finishList_SelectOn_ok (srv : Server) (db : Store) (fault : Option GoError) (q : Query)
    (message : String)
    (hsrv : srv.reads q.text = none ∨ srv.reads q.text = some spaceMappings)
    (hok : (Db.SelectOn srv db fault q).2 = none) :
    ∃ rs, q.rows db = Except.ok rs ∧
      (finishList (Db.SelectOn srv db fault q) message).2 = none ∧
      (finishList (Db.SelectOn srv db fault q) message).1.getD [] = rs := by
  obtain ⟨rs, hrows, hsel, hlist⟩ := SelectOn_ok srv db fault q hsrv hok
  refine ⟨rs, hrows, ?_, ?_⟩
  · rw [hsel, finishList_ok]
  · rw [hsel, finishList_ok]
    exact hlist

/-- Rows of the left join that carry a member row. -/
theorem mem_leftJoin_some (ps : List Permission) (rs : List GroupMember) (p : Permission)
    (m : GroupMember) :
    (p, some m) ∈ leftJoin ps rs ↔ p ∈ ps ∧ m ∈ rs ∧ p.c_whoid = m.c_groupid := by
  unfold leftJoin
  rw [List.mem_flatMap]
  constructor
  · rintro ⟨p', hp', hmem⟩
    cases hf : rs.filter (fun r => p'.c_whoid = r.c_groupid) with
    | nil => simp [hf] at hmem
    | cons a l =>
      rw [hf] at hmem
      simp only [List.mem_map, Prod.mk.injEq, Option.some.injEq] at hmem
      obtain ⟨r, hr, hpp, hrm⟩ := hmem
      subst hpp
      subst hrm
      have : r ∈ rs.filter (fun r => p'.c_whoid = r.c_groupid) := by rw [hf]; exact hr
      rw [List.mem_filter] at this
      exact ⟨hp', this.1, by simpa using this.2⟩
  · rintro ⟨hp, hm, hpm⟩
    refine ⟨p, hp, ?_⟩
    have hin : m ∈ rs.filter (fun r => p.c_whoid = r.c_groupid) := by
      rw [List.mem_filter]
      exact ⟨hm, by simpa using hpm⟩
    cases hf : rs.filter (fun r => p.c_whoid = r.c_groupid) with
    | nil => rw [hf] at hin; cases hin
    | cons a l =>
      rw [hf] at hin
      exact List.mem_map.mpr ⟨m, hin, rfl⟩

/-- A select whose list reads as the ten mappings succeeds, without a
connection failure, with the rows the clauses of the statement select. -/
theorem SelectOn_succeeds (srv : Server) (db : Store) (q : Query) (rs : List Space)
    (hreads : srv.reads q.text = some spaceMappings) (hrows : q.rows db = Except.ok rs) :
    Db.SelectOn srv db none q = (if rs = [] then none else some rs, none) := by
  have hrun : Db.runOn srv db none q = Except.ok rs := by
    simp only [Db.runOn, hreads, hrows, decodeRow_spaceMappings, mapM_decodeRow_spaceMappings]
  simp only [Db.SelectOn, hrun]
  cases rs <;> simp

/-- The reference ids the innermost subquery of `GetViewable` yields, once its
columns resolve: those of the "view" grants of the organization on a space
that reach the user. -/
theorem mem_inner_refs (db : Store) (orgID userID x : String) :
    x ∈ ((db.permissions.filter fun p =>
            p.c_orgid = orgID ∧ p.c_who = "user" ∧ (p.c_whoid = userID ∨ p.c_whoid = "0") ∧
              p.c_location = "space" ∧ p.c_action = "view").map Permission.c_refid ++
          (((leftJoin db.permissions db.members).filter fun pr =>
            pr.1.c_orgid = orgID ∧ pr.1.c_who = "role" ∧
              pr.1.c_location = "space" ∧ pr.1.c_action = "view" ∧
              memberMatches userID pr.2).map Prod.fst).map Permission.c_refid) ↔
      ∃ p ∈ db.permissions,
        p.c_orgid = orgID ∧ p.c_location = "space" ∧ p.c_refid = x ∧ p.c_action = "view" ∧
          ((p.c_who = "user" ∧ (p.c_whoid = userID ∨ p.c_whoid = "0")) ∨
            (p.c_who = "role" ∧
              ∃ m ∈ db.members, m.c_groupid = p.c_whoid ∧
                (m.c_userid = userID ∨ m.c_userid = "0"))) := by
  rw [List.mem_append]
  constructor
  · rintro (h | h)
    · rw [List.mem_map] at h
      obtain ⟨p, hp, hx⟩ := h
      rw [List.mem_filter] at hp
      obtain ⟨hmem, hcond⟩ := hp
      simp only [decide_eq_true_eq] at hcond
      exact ⟨p, hmem, hcond.1, hcond.2.2.2.1, hx, hcond.2.2.2.2, Or.inl ⟨hcond.2.1, hcond.2.2.1⟩⟩
    · rw [List.mem_map] at h
      obtain ⟨p, hp, hx⟩ := h
      rw [List.mem_map] at hp
      obtain ⟨⟨p', om⟩, hpr, hfst⟩ := hp
      simp only at hfst
      subst hfst
      rw [List.mem_filter] at hpr
      obtain ⟨hmem, hcond⟩ := hpr
      simp only [decide_eq_true_eq] at hcond
      obtain ⟨ho, hw, hl, ha, hm⟩ := hcond
      cases om with
      | none => simp [memberMatches] at hm
      | some m =>
        simp only [memberMatches, decide_eq_true_eq] at hm
        rw [mem_leftJoin_some] at hmem
        exact ⟨p', hmem.1, ho, hl, hx, ha, Or.inr ⟨hw, m, hmem.2.1, hmem.2.2.symm, hm⟩⟩
  · rintro ⟨p, hmem, ho, hl, hx, ha, hkind⟩
    rcases hkind with ⟨hw, hid⟩ | ⟨hw, m, hm, hg, hu⟩
    · left
      rw [List.mem_map]
      refine ⟨p, ?_, hx⟩
      rw [List.mem_filter]
      exact ⟨hmem, by simp only [decide_eq_true_eq]; exact ⟨ho, hw, hid, hl, ha⟩⟩
    · right
      rw [List.mem_map]
      refine ⟨p, ?_, hx⟩
      rw [List.mem_map]
      refine ⟨(p, some m), ?_, rfl⟩
      rw [List.mem_filter]
      refine ⟨(mem_leftJoin_some _ _ _ _).mpr ⟨hmem, hm, hg.symm⟩, ?_⟩
      simp only [decide_eq_true_eq, memberMatches]
      exact ⟨ho, hw, hl, ha, hu⟩

/-- The clauses of `GetViewable` on a server that resolves both `c_refid` and
`refid` to the reference id of a permission row: the spaces of the organization
the user has a "view" grant on, in ascending order of name. -/
theorem viewableRowsOn_resolved (srv : Server) (orgID userID : String) (db : Store)
    (hc : srv.permissionColumn "c_refid" = some Permission.c_refid)
    (hr : srv.permissionColumn "refid" = some Permission.c_refid) :
    viewableRowsOn srv orgID userID db =
      Except.ok
        ((db.spaces.filter fun r =>
            r.OrgID = orgID ∧ specHasViewGrant db ⟨orgID, userID⟩ r).insertionSort
          fun a b => a.Name ≤ b.Name) := by
  simp only [viewableRowsOn, viewableRefsOn, projectPermissionOn, hc, hr]
  congr 2
  apply List.filter_congr
  intro r _
  have hiff : (r.OrgID = orgID ∧ r.RefID ∈
      (db.permissions.filter fun p =>
        p.c_orgid = orgID ∧ p.c_location = "space" ∧ p.c_refid ∈
          ((db.permissions.filter fun p =>
              p.c_orgid = orgID ∧ p.c_who = "user" ∧
                (p.c_whoid = userID ∨ p.c_whoid = "0") ∧
                p.c_location = "space" ∧ p.c_action = "view").map Permission.c_refid ++
            (((leftJoin db.permissions db.members).filter fun pr =>
              pr.1.c_orgid = orgID ∧ pr.1.c_who = "role" ∧
                pr.1.c_location = "space" ∧ pr.1.c_action = "view" ∧
                memberMatches userID pr.2).map Prod.fst).map Permission.c_refid)).map
        Permission.c_refid) ↔
      (r.OrgID = orgID ∧ specHasViewGrant db ⟨orgID, userID⟩ r) := by
    apply and_congr_right
    intro _
    unfold specHasViewGrant
    rw [← mem_inner_refs]
    constructor
    · intro h
      rw [List.mem_map] at h
      obtain ⟨p, hp, hx⟩ := h
      rw [List.mem_filter] at hp
      have := hp.2
      simp only [decide_eq_true_eq] at this
      rw [← hx]
      exact this.2.2
    · intro h
      have h' := h
      rw [mem_inner_refs] at h'
      obtain ⟨p, hmem, ho, hl, hx, _⟩ := h'
      rw [List.mem_map]
      refine ⟨p, ?_, hx⟩
      rw [List.mem_filter]
      refine ⟨hmem, ?_⟩
      simp only [decide_eq_true_eq]
      exact ⟨ho, hl, by rw [hx]; exact h⟩
  exact decide_eq_decide.mpr hiff

/-- The clauses of `GetViewable` on a server that does not know the column
`refid`. -/
theorem viewableRowsOn_unresolved (srv : Server) (orgID userID : String) (db : Store)
    (hr : srv.permissionColumn "refid" = none) :
    ∃ e, viewableRowsOn srv orgID userID db = Except.error e := by
  unfold viewableRowsOn viewableRefsOn
  cases h1 : projectPermissionOn srv "c_refid"
      (db.permissions.filter fun p =>
        p.c_orgid = orgID ∧ p.c_who = "user" ∧ (p.c_whoid = userID ∨ p.c_whoid = "0") ∧
          p.c_location = "space" ∧ p.c_action = "view") with
  | error e => exact ⟨e, rfl⟩
  | ok users =>
    simp only [projectPermissionOn, hr]
    exact ⟨_, rfl⟩

set_option maxRecDepth 100000 in
/-- The comma-tolerant reading makes the ten mappings of every statement of
the store. -/
theorem looseMappings_queries :
    looseMappings getQuery = some spaceMappings ∧
      looseMappings publicSpacesQuery = some spaceMappings ∧
      looseMappings getViewableQuery = some spaceMappings ∧
      looseMappings getAllQuery = some spaceMappings := by
  decide

/-! ## The claims -/

/-- C2. Whenever the underlying select reports `sql.ErrNoRows`, each of
`PublicSpaces`, `GetViewable` and `GetAll` returns an empty non-nil list and a
nil error. -/
theorem list_operations_normalise_no_rows (db : Store) (fault : Option GoError)
    (ctx : RequestContext) (orgID : String) :
    ((Db.Select db fault (publicSpacesStmt orgID)).2 = some GoError.ErrNoRows →
        Scope.PublicSpaces db fault ctx orgID = (some [], none)) ∧
      ((Db.Select db fault (getViewableStmt ctx.OrgID ctx.UserID)).2 = some GoError.ErrNoRows →
        Scope.GetViewable db fault ctx = (some [], none)) ∧
      ((Db.Select db fault (getAllStmt ctx.OrgID)).2 = some GoError.ErrNoRows →
        Scope.GetAll db fault ctx = (some [], none)) :=
  ⟨fun h => finishList_noRows _ _ h, fun h => finishList_noRows _ _ h,
    fun h => finishList_noRows _ _ h⟩

/-- Witness of C2: a select that reports `sql.ErrNoRows` on the sample store. -/
theorem list_operations_normalise_no_rows_witness :
    Scope.PublicSpaces sampleStore (some GoError.ErrNoRows) sampleCtx "o1" = (some [], none) ∧
      Scope.GetViewable sampleStore (some GoError.ErrNoRows) sampleCtx = (some [], none) ∧
      Scope.GetAll sampleStore (some GoError.ErrNoRows) sampleCtx = (some [], none) :=
  have h := list_operations_normalise_no_rows sampleStore (some GoError.ErrNoRows) sampleCtx "o1"
  ⟨h.1 rfl, h.2.1 rfl, h.2.2 rfl⟩

/-- C3. `Get` returns an error exactly when the single-row lookup by
(organization id, reference id) fails, that is on a connection failure or when
no row matches; with no matching row the error is the wrapped
`sql.ErrNoRows`, and with exactly one matching row `Get` returns that row and
a nil error. -/
theorem Get_fails_iff_lookup_fails (db : Store) (fault : Option GoError)
    (ctx : RequestContext) (id : String) :
    ((Scope.Get db fault ctx id).2 ≠ none ↔
        (Db.Get db fault (getStmt ctx.OrgID id)).2 ≠ none) ∧
      ((Scope.Get db fault ctx id).2 ≠ none ↔
        (fault ≠ none ∨ ∀ r ∈ db.spaces, ¬ (r.OrgID = ctx.OrgID ∧ r.RefID = id))) ∧
      (fault = none → (∀ r ∈ db.spaces, ¬ (r.OrgID = ctx.OrgID ∧ r.RefID = id)) →
        Scope.Get db fault ctx id =
          (Space.zero,
            some (errors.Wrap GoError.ErrNoRows ("unable to execute select for label " ++ id)))) ∧
      (∀ r, fault = none →
        db.spaces.filter (fun x => x.OrgID = ctx.OrgID ∧ x.RefID = id) = [r] →
        Scope.Get db fault ctx id = (r, none)) := by
  have hempty : (db.spaces.filter (fun x => x.OrgID = ctx.OrgID ∧ x.RefID = id) = []) ↔
      ∀ r ∈ db.spaces, ¬ (r.OrgID = ctx.OrgID ∧ r.RefID = id) := by
    simp [List.filter_eq_nil_iff]
  refine ⟨?_, ?_, ?_, ?_⟩
  · unfold Scope.Get
    rcases Db.Get db fault (getStmt ctx.OrgID id) with ⟨sp, _ | e⟩ <;> simp
  · cases fault with
    | some e => simp [Scope.Get, Db.Get, run_fault]
    | none =>
      rw [Get_eq, ← hempty]
      cases db.spaces.filter (fun x => x.OrgID = ctx.OrgID ∧ x.RefID = id) <;> simp
  · intro hf hno
    subst hf
    rw [Get_eq, hempty.mpr hno]
  · intro r hf hone
    subst hf
    rw [Get_eq, hone]

/-- Witness of C3: on the sample store `s9` matches no row and `s1` matches
exactly one. -/
theorem Get_fails_iff_lookup_fails_witness :
    Scope.Get sampleStore none sampleCtx "s9" =
        (Space.zero,
          some (errors.Wrap GoError.ErrNoRows "unable to execute select for label s9")) ∧
      Scope.Get sampleStore none sampleCtx "s1" = (spaceAlpha, none) :=
  ⟨(Get_fails_iff_lookup_fails sampleStore none sampleCtx "s9").2.2.1 rfl (by decide),
    (Get_fails_iff_lookup_fails sampleStore none sampleCtx "s1").2.2.2 spaceAlpha rfl
      (by decide)⟩

/-- C5, as stated, fails: an `Update` whose clock reading is the stored
revised succeeds and leaves revised as it was, not strictly greater. -/
theorem Update_revised_counterexample :
    (Scope.Update sampleStore none sampleCtx spaceAlphaRenamed 10).2 = none ∧
      (Scope.Update sampleStore none sampleCtx spaceAlphaRenamed 10).1.spaces =
        [⟨1, "s1", "Alpha two", "o1", "u2", 0, 1, 5, 10, 10⟩, spaceBeta, spaceGamma] ∧
      sampleStore.spaces = [spaceAlpha, spaceBeta, spaceGamma] ∧
      spaceAlpha.OrgID = spaceAlphaRenamed.OrgID ∧ spaceAlpha.RefID = spaceAlphaRenamed.RefID ∧
      ¬ (spaceAlpha.Revised < (⟨1, "s1", "Alpha two", "o1", "u2", 0, 1, 5, 10, 10⟩ : Space).Revised) := by
  decide

/-- C5, amended. After a successful `Update` the rows stand in the order they
had; a row matching (space organization id, space reference id) keeps its
reference id, organization id, identifier and created, takes name, type,
lifecycle, owner and likes from the space and has the clock reading of the
update as revised, which is greater than before exactly when that reading is
later than the stored one; every other row, and the permission and
group-member tables, are unchanged. -/
theorem Update_frame (db : Store) (fault : Option GoError) (ctx : RequestContext) (sp : Space)
    (now : Nat) (hupd : (Scope.Update db fault ctx sp now).2 = none) :
    List.Forall₂
        (fun r r' =>
          (r.OrgID = sp.OrgID ∧ r.RefID = sp.RefID →
            r'.RefID = r.RefID ∧ r'.OrgID = r.OrgID ∧ r'.ID = r.ID ∧ r'.Created = r.Created ∧
              r'.Name = sp.Name ∧ r'.Type_ = sp.Type_ ∧ r'.Lifecycle = sp.Lifecycle ∧
              r'.UserID = sp.UserID ∧ r'.Likes = sp.Likes ∧ r'.Revised = now ∧
              (r.Revised < r'.Revised ↔ r.Revised < now)) ∧
            (¬ (r.OrgID = sp.OrgID ∧ r.RefID = sp.RefID) → r' = r))
        db.spaces (Scope.Update db fault ctx sp now).1.spaces ∧
      (Scope.Update db fault ctx sp now).1.permissions = db.permissions ∧
      (Scope.Update db fault ctx sp now).1.members = db.members ∧
      (Scope.Update db fault ctx sp now).1.nextID = db.nextID := by
  cases fault with
  | some e => simp [Update_fault] at hupd
  | none =>
    rw [Update_eq]
    refine ⟨?_, rfl, rfl, rfl⟩
    simp only
    rw [List.forall₂_map_right_iff]
    apply List.forall₂_same.mpr
    intro r _
    by_cases h : r.OrgID = sp.OrgID ∧ r.RefID = sp.RefID
    · simp [h]
    · simp [h]

/-- Witness of C5 amended: `s1` updated on the sample store at a later clock
reading. -/
theorem Update_frame_witness :
    (Scope.Update sampleStore none sampleCtx spaceAlphaRenamed 11).2 = none ∧
      (Scope.Update sampleStore none sampleCtx spaceAlphaRenamed 11).1.spaces =
        [⟨1, "s1", "Alpha two", "o1", "u2", 0, 1, 5, 10, 11⟩, spaceBeta, spaceGamma] ∧
      (List.Forall₂
          (fun r r' =>
            (r.OrgID = spaceAlphaRenamed.OrgID ∧ r.RefID = spaceAlphaRenamed.RefID →
              r'.RefID = r.RefID ∧ r'.OrgID = r.OrgID ∧ r'.ID = r.ID ∧
                r'.Created = r.Created ∧ r'.Name = spaceAlphaRenamed.Name ∧
                r'.Type_ = spaceAlphaRenamed.Type_ ∧
                r'.Lifecycle = spaceAlphaRenamed.Lifecycle ∧
                r'.UserID = spaceAlphaRenamed.UserID ∧ r'.Likes = spaceAlphaRenamed.Likes ∧
                r'.Revised = 11 ∧ (r.Revised < r'.Revised ↔ r.Revised < 11)) ∧
              (¬ (r.OrgID = spaceAlphaRenamed.OrgID ∧ r.RefID = spaceAlphaRenamed.RefID) →
                r' = r))
          sampleStore.spaces
          (Scope.Update sampleStore none sampleCtx spaceAlphaRenamed 11).1.spaces ∧
        (Scope.Update sampleStore none sampleCtx spaceAlphaRenamed 11).1.permissions =
          sampleStore.permissions ∧
        (Scope.Update sampleStore none sampleCtx spaceAlphaRenamed 11).1.members =
          sampleStore.members ∧
        (Scope.Update sampleStore none sampleCtx spaceAlphaRenamed 11).1.nextID =
          sampleStore.nextID) :=
  ⟨rfl, by decide, Update_frame sampleStore none sampleCtx spaceAlphaRenamed 11 rfl⟩


/-- C8. The error `Add` returns on a refused connection wraps the cause, but
neither its message nor its full text holds the space's reference id or the
organization id: the message is a fixed text, where `Get` and `Update` format
the reference id into theirs. -/
theorem Add_error_carries_no_key :
    Scope.Add sampleStore (some (GoError.driver "connection refused")) sampleCtx spaceDelta 7 8 =
        (sampleStore,
          some (errors.Wrap (GoError.driver "connection refused")
            "unable to execute insert for label")) ∧
      ¬ occursIn spaceDelta.RefID
          (errors.Wrap (GoError.driver "connection refused")
            "unable to execute insert for label").Error ∧
      ¬ occursIn spaceDelta.OrgID
          (errors.Wrap (GoError.driver "connection refused")
            "unable to execute insert for label").Error := by
  refine ⟨rfl, ?_, ?_⟩ <;> decide

/-- The wrapping of storage errors, operation by operation.  Every operation
returns an underlying storage error `e` (other than `sql.ErrNoRows` for the
list operations) wrapped as the cause of its own error.  The message of `Get`
and of `Update` names the operation and ends with the reference id, the
message of each list operation names the operation and ends with the
organization id, and the message of `Add` is the fixed text "unable to execute
insert for label". -/
theorem storage_errors_are_wrapped (db : Store) (fault : Option GoError) (ctx : RequestContext)
    (sp : Space) (id orgID : String) (now1 now2 now : Nat) (e : GoError) :
    (fault = some e →
        Scope.Add db fault ctx sp now1 now2 =
          (db, some (errors.Wrap e "unable to execute insert for label"))) ∧
      ((Db.Get db fault (getStmt ctx.OrgID id)).2 = some e →
        (Scope.Get db fault ctx id).2 =
            some (errors.Wrap e ("unable to execute select for label " ++ id)) ∧
          occursIn id ("unable to execute select for label " ++ id)) ∧
      (e ≠ GoError.ErrNoRows → (Db.Select db fault (publicSpacesStmt orgID)).2 = some e →
        (Scope.PublicSpaces db fault ctx orgID).2 =
            some (errors.Wrap e ("Unable to execute GetPublicFolders for org " ++ orgID)) ∧
          occursIn orgID ("Unable to execute GetPublicFolders for org " ++ orgID)) ∧
      (e ≠ GoError.ErrNoRows →
        (Db.Select db fault (getViewableStmt ctx.OrgID ctx.UserID)).2 = some e →
        (Scope.GetViewable db fault ctx).2 =
            some (errors.Wrap e ("failed space.GetViewable org " ++ ctx.OrgID)) ∧
          occursIn ctx.OrgID ("failed space.GetViewable org " ++ ctx.OrgID)) ∧
      (e ≠ GoError.ErrNoRows → (Db.Select db fault (getAllStmt ctx.OrgID)).2 = some e →
        (Scope.GetAll db fault ctx).2 =
            some (errors.Wrap e ("failed space.GetAll org " ++ ctx.OrgID)) ∧
          occursIn ctx.OrgID ("failed space.GetAll org " ++ ctx.OrgID)) ∧
      (fault = some e →
        Scope.Update db fault ctx sp now =
            (db, some (errors.Wrap e ("unable to execute update for label " ++ sp.RefID))) ∧
          occursIn sp.RefID ("unable to execute update for label " ++ sp.RefID)) ∧
      (∀ m, (errors.Wrap e m).cause = some e ∧ (errors.Wrap e m).message = m) := by
  have hlist : ∀ (r : Option (List Space) × Option GoError) (m : String),
      e ≠ GoError.ErrNoRows → r.2 = some e → (finishList r m).2 = some (errors.Wrap e m) := by
    intro r m he hr
    rcases r with ⟨l, err⟩
    change err = some e at hr
    subst hr
    rw [finishList_error l e m he]
  refine ⟨?_, ?_, ?_, ?_, ?_, ?_, fun m => ⟨rfl, rfl⟩⟩
  · intro hf
    subst hf
    rfl
  · intro h
    refine ⟨?_, occursIn_append _ _⟩
    unfold Scope.Get
    generalize Db.Get db fault (getStmt ctx.OrgID id) = g at h
    rcases g with ⟨r, err⟩
    change err = some e at h
    subst h
    rfl
  · intro he h
    exact ⟨hlist _ _ he h, occursIn_append _ _⟩
  · intro he h
    exact ⟨hlist _ _ he h, occursIn_append _ _⟩
  · intro he h
    exact ⟨hlist _ _ he h, occursIn_append _ _⟩
  · intro hf
    subst hf
    exact ⟨rfl, occursIn_append _ _⟩

/-- The wrapping of a refused connection on the sample store. -/
theorem storage_errors_are_wrapped_witness :
    Scope.Add sampleStore (some (GoError.driver "connection refused")) sampleCtx spaceDelta 7 8 =
        (sampleStore,
          some (errors.Wrap (GoError.driver "connection refused")
            "unable to execute insert for label")) ∧
      (Scope.Get sampleStore (some (GoError.driver "connection refused")) sampleCtx "s1").2 =
        some (errors.Wrap (GoError.driver "connection refused")
          "unable to execute select for label s1") ∧
      (Scope.PublicSpaces sampleStore (some (GoError.driver "connection refused")) sampleCtx
          "o1").2 =
        some (errors.Wrap (GoError.driver "connection refused")
          "Unable to execute GetPublicFolders for org o1") ∧
      (Scope.GetViewable sampleStore (some (GoError.driver "connection refused")) sampleCtx).2 =
        some (errors.Wrap (GoError.driver "connection refused")
          "failed space.GetViewable org o1") ∧
      (Scope.GetAll sampleStore (some (GoError.driver "connection refused")) sampleCtx).2 =
        some (errors.Wrap (GoError.driver "connection refused") "failed space.GetAll org o1") ∧
      Scope.Update sampleStore (some (GoError.driver "connection refused")) sampleCtx
          spaceAlphaRenamed 11 =
        (sampleStore,
          some (errors.Wrap (GoError.driver "connection refused")
            "unable to execute update for label s1")) :=
  have h := storage_errors_are_wrapped sampleStore (some (GoError.driver "connection refused"))
    sampleCtx spaceDelta "s1" "o1" 7 8 11 (GoError.driver "connection refused")
  have h' := storage_errors_are_wrapped sampleStore (some (GoError.driver "connection refused"))
    sampleCtx spaceAlphaRenamed "s1" "o1" 7 8 11 (GoError.driver "connection refused")
  ⟨h.1 rfl, (h.2.1 rfl).1, (h.2.2.1 (by decide) rfl).1, (h.2.2.2.1 (by decide) rfl).1,
    (h.2.2.2.2.1 (by decide) rfl).1, (h'.2.2.2.2.2.1 rfl).1⟩

/-- C9. When no row matches (space organization id, space reference id) and the
statement executes without a storage error, `Update` returns a nil error and
the store is unchanged. -/
theorem Update_without_match (db : Store) (ctx : RequestContext) (sp : Space) (now : Nat)
    (hno : ∀ r ∈ db.spaces, ¬ (r.OrgID = sp.OrgID ∧ r.RefID = sp.RefID)) :
    Scope.Update db none ctx sp now = (db, none) := by
  rw [Update_eq]
  have hmap : db.spaces.map (fun r =>
      if r.OrgID = sp.OrgID ∧ r.RefID = sp.RefID then
        { r with
            Name := sp.Name, Type_ := sp.Type_, Lifecycle := sp.Lifecycle,
            UserID := sp.UserID, Likes := sp.Likes, Revised := now }
      else r) = db.spaces := by
    conv_rhs => rw [← List.map_id db.spaces]
    apply List.map_congr_left
    intro r hr
    simp [hno r hr]
  rw [hmap]

/-- Witness of C9: reference id `s4` is not in the sample store. -/
theorem Update_without_match_witness :
    Scope.Update sampleStore none sampleCtx spaceDelta 11 = (sampleStore, none) :=
  Update_without_match sampleStore sampleCtx spaceDelta 11 (by decide)

set_option maxRecDepth 100000 in
/-- C10. The select list of `Get` reads as the ten mappings, but the select
list of each list query has nine comma-separated items, the second being
`c_refid as refid c_name as name`, which is no `column as alias` item: the
comma after `refid` is missing, and the list does not read as mappings. -/
theorem list_select_lists_are_malformed :
    selectMappings getQuery = some spaceMappings ∧
      selectItems publicSpacesQuery =
        [["id"], ["c_refid", "as", "refid", "c_name", "as", "name"], ["c_orgid", "as", "orgid"],
          ["c_userid", "as", "userid"], ["c_type", "as", "type"],
          ["c_lifecycle", "as", "lifecycle"], ["c_likes", "as", "likes"],
          ["c_created", "as", "created"], ["c_revised", "as", "revised"]] ∧
      selectItems getViewableQuery = selectItems publicSpacesQuery ∧
      selectItems getAllQuery = selectItems publicSpacesQuery ∧
      (selectItems publicSpacesQuery).length = 9 ∧
      parseItem ["c_refid", "as", "refid", "c_name", "as", "name"] = none ∧
      selectMappings publicSpacesQuery = none ∧
      selectMappings getViewableQuery = none ∧
      selectMappings getAllQuery = none := by
  decide

end SpaceStore
